import Mathlib

/-!
Verification development for the face-compositing tool
(src/tools/face_composite.py of the storybook-learning repository).

The Python source is shallowly embedded: pure computations become Lean
functions over exact arithmetic (machine floats are modelled as rationals
and reals; the `int(...)` cast is truncation toward zero; the `uint8`
cast is truncation), external OpenCV/InsightFace primitives (image decode,
face detection, affine estimation, warping, Gaussian blur, color-space
conversion, Poisson cloning, file writing) are abstract parameters of an
environment record, and the orchestrator control flow of
`composite_face` / `main` is embedded match-by-match.
-/

namespace FaceComposite

/-- Python `int(...)` applied to a float: truncation toward zero. -/
def pyInt (q : ℚ) : ℤ :=
  if 0 ≤ q then ⌊q⌋ else ⌈q⌉

/-- A 2D point with float coordinates (models a landmark coordinate pair). -/
abbrev Pt : Type := ℚ × ℚ

/-- Axis-aligned bounding box `(x1, y1, x2, y2)` as produced by the detector. -/
structure BBox where
  x1 : ℚ
  y1 : ℚ
  x2 : ℚ
  y2 : ℚ
deriving DecidableEq, Repr

/-- A detected face as consumed from the external Face Analyzer: the 5-point
landmark list `kps` (possibly absent, as `face.kps` can be `None` in the
source) and the bounding box. -/
structure Face where
  kps : Option (List Pt)
  bbox : BBox
deriving DecidableEq, Repr

/-- Bounding-box area `(bbox[2] - bbox[0]) * (bbox[3] - bbox[1])`
(line 110 of face_composite.py and line 77 for the hero-side max). -/
def bboxArea (b : BBox) : ℚ :=
  (b.x2 - b.x1) * (b.y2 - b.y1)

/-- Squared Euclidean distance from the bbox center
`((x1+x2)/2, (y1+y2)/2)` to the image center `(w/2, h/2)`
(the quantity whose square root `np.linalg.norm` takes on line 112). -/
def distSq (b : BBox) (w h : ℚ) : ℚ :=
  ((b.x1 + b.x2) / 2 - w / 2) ^ 2 + ((b.y1 + b.y2) / 2 - h / 2) ^ 2

/-- The selection score of `score_face` (line 114):
`area - dist_to_center * 10`, with the distance an exact real square root. -/
noncomputable def scoreFace (f : Face) (w h : ℚ) : ℝ :=
  (bboxArea f.bbox : ℝ) - 10 * Real.sqrt (distSq f.bbox w h)

/-- Exact decision procedure for `Real.sqrt y < D + Real.sqrt x`
(`x, y ≥ 0` rationals).  This is the only comparison the float code of
`max(faces, key=score_face)` performs, rephrased so that it is decidable
over the rationals. -/
def sqrtAddGt (D x y : ℚ) : Bool :=
  let lhsPos : Bool :=
    if 0 ≤ D then decide (0 < D) || decide (0 < x) else decide (D ^ 2 < x)
  if lhsPos then
    let E := y - D ^ 2 - x
    if 0 ≤ D then decide (E < 0) || decide (E ^ 2 < 4 * D ^ 2 * x)
    else decide (E < 0) && decide (4 * D ^ 2 * x < E ^ 2)
  else false

lemma twoMul_sqrt_eq (D : ℚ) (x : ℚ) (hD : (0:ℝ) ≤ (D:ℝ)) (_hx : (0:ℝ) ≤ (x:ℝ)) :
    2 * (D:ℝ) * Real.sqrt (x:ℝ) = Real.sqrt ((4 * D ^ 2 * x : ℚ) : ℝ) := by
  have h4 : ((4 * D ^ 2 * x : ℚ) : ℝ) = ((2 * D : ℝ)) ^ 2 * (x : ℝ) := by
    push_cast; ring
  rw [h4, Real.sqrt_mul (by positivity) ((x : ℝ)), Real.sqrt_sq (by linarith)]

/-- Correctness of `sqrtAddGt` against the exact real comparison. -/
lemma sqrtAddGt_iff (D x y : ℚ) (hx : 0 ≤ x) (hy : 0 ≤ y) :
    sqrtAddGt D x y = true ↔ Real.sqrt y < (D : ℝ) + Real.sqrt x := by
  have hxR : (0:ℝ) ≤ (x:ℝ) := by exact_mod_cast hx
  have hyR : (0:ℝ) ≤ (y:ℝ) := by exact_mod_cast hy
  have hsx : (0:ℝ) ≤ Real.sqrt x := Real.sqrt_nonneg _
  have hsy : (0:ℝ) ≤ Real.sqrt y := Real.sqrt_nonneg _
  -- first: the boolean lhsPos decides 0 < D + sqrt x
  have hpos : ((if 0 ≤ D then decide (0 < D) || decide (0 < x)
      else decide (D ^ 2 < x)) = true) ↔ (0:ℝ) < (D:ℝ) + Real.sqrt x := by
    by_cases hD : 0 ≤ D
    · simp only [hD, if_true, Bool.or_eq_true, decide_eq_true_eq]
      constructor
      · rintro (h | h)
        · have : (0:ℝ) < (D:ℝ) := by exact_mod_cast h
          linarith
        · have : (0:ℝ) < Real.sqrt x := Real.sqrt_pos.mpr (by exact_mod_cast h)
          have hDR : (0:ℝ) ≤ (D:ℝ) := by exact_mod_cast hD
          linarith
      · intro h
        by_contra hcon
        push_neg at hcon
        obtain ⟨h1, h2⟩ := hcon
        have hD0 : D = 0 := le_antisymm h1 hD
        have hx0 : x = 0 := le_antisymm h2 hx
        rw [hD0, hx0] at h
        simp at h
    · simp only [hD, if_false, decide_eq_true_eq]
      have hDneg : (D:ℝ) < 0 := by exact_mod_cast (not_le.mp hD)
      constructor
      · intro h
        have : (-(D:ℝ)) < Real.sqrt x := by
          rw [show (-(D:ℝ)) = ((-D : ℚ) : ℝ) by push_cast; ring]
          apply Real.lt_sqrt_of_sq_lt
          push_cast
          have : ((D:ℝ)) ^ 2 < (x:ℝ) := by exact_mod_cast h
          nlinarith
        linarith
      · intro h
        have h1 : (-(D:ℝ)) < Real.sqrt x := by linarith
        have h2 : (-(D:ℝ)) ^ 2 < (x:ℝ) := by
          have := (Real.lt_sqrt (by linarith : (0:ℝ) ≤ -(D:ℝ))).mp h1
          linarith
        exact_mod_cast (by nlinarith : ((D:ℚ):ℝ) ^ 2 < (x:ℝ))
  unfold sqrtAddGt
  by_cases hP : (0:ℝ) < (D:ℝ) + Real.sqrt x
  · rw [if_pos (hpos.mpr hP)]
    -- both sides of the target comparison: sqrt y < D + sqrt x  iff  y < (D+sqrt x)^2
    have hmain : Real.sqrt y < (D:ℝ) + Real.sqrt x ↔
        ((y - D ^ 2 - x : ℚ) : ℝ) < 2 * (D:ℝ) * Real.sqrt x := by
      rw [Real.sqrt_lt' hP]
      have hexp : ((D:ℝ) + Real.sqrt x) ^ 2
          = (D:ℝ) ^ 2 + 2 * (D:ℝ) * Real.sqrt x + (x:ℝ) := by
        have : Real.sqrt (x:ℝ) ^ 2 = (x:ℝ) := Real.sq_sqrt hxR
        nlinarith [this]
      rw [hexp]
      push_cast
      constructor <;> intro h <;> linarith
    rw [hmain]
    by_cases hD : 0 ≤ D
    · have hDR : (0:ℝ) ≤ (D:ℝ) := by exact_mod_cast hD
      rw [if_pos hD]
      simp only [Bool.or_eq_true, decide_eq_true_eq]
      constructor
      · rintro (h | h)
        · have : ((y - D ^ 2 - x : ℚ) : ℝ) < 0 := by exact_mod_cast h
          have : (0:ℝ) ≤ 2 * (D:ℝ) * Real.sqrt x := by positivity
          linarith
        · -- E^2 < 4 D^2 x  with E possibly negative; if E < 0 trivial, else sqrt compare
          by_cases hE : y - D ^ 2 - x < 0
          · have : ((y - D ^ 2 - x : ℚ) : ℝ) < 0 := by exact_mod_cast hE
            have : (0:ℝ) ≤ 2 * (D:ℝ) * Real.sqrt x := by positivity
            linarith
          · push_neg at hE
            have hER : (0:ℝ) ≤ ((y - D ^ 2 - x : ℚ) : ℝ) := by exact_mod_cast hE
            rw [twoMul_sqrt_eq D x hDR hxR]
            apply Real.lt_sqrt_of_sq_lt
            have : ((y - D ^ 2 - x : ℚ) ^ 2 : ℝ) < ((4 * D ^ 2 * x : ℚ) : ℝ) := by
              exact_mod_cast h
            calc (((y - D ^ 2 - x : ℚ) : ℝ)) ^ 2
                = (((y - D ^ 2 - x : ℚ) ^ 2 : ℚ) : ℝ) := by push_cast; ring
              _ < _ := by exact_mod_cast h
      · intro h
        by_cases hE : y - D ^ 2 - x < 0
        · exact Or.inl hE
        · push_neg at hE
          right
          have hER : (0:ℝ) ≤ ((y - D ^ 2 - x : ℚ) : ℝ) := by exact_mod_cast hE
          rw [twoMul_sqrt_eq D x hDR hxR] at h
          have := (Real.lt_sqrt hER).mp h
          have : (((y - D ^ 2 - x : ℚ) : ℝ)) ^ 2 < ((4 * D ^ 2 * x : ℚ) : ℝ) := this
          exact_mod_cast (by push_cast at this ⊢; nlinarith : ((((y - D ^ 2 - x) ^ 2 : ℚ)) : ℝ) < ((4 * D ^ 2 * x : ℚ) : ℝ))
    · have hDneg : (D:ℝ) < 0 := by exact_mod_cast (not_le.mp hD)
      rw [if_neg hD]
      simp only [Bool.and_eq_true, decide_eq_true_eq]
      -- here 2 D sqrt x = -(sqrt (4 D^2 x)) ≤ 0
      have hflip : 2 * (D:ℝ) * Real.sqrt x = -(Real.sqrt ((4 * D ^ 2 * x : ℚ) : ℝ)) := by
        have := twoMul_sqrt_eq (-D) x (by exact_mod_cast (by linarith : (0:ℚ) ≤ -D)) hxR

        have h4 : ((4 * (-D) ^ 2 * x : ℚ) : ℝ) = ((4 * D ^ 2 * x : ℚ) : ℝ) := by
          push_cast; ring
        rw [h4] at this
        push_cast at this ⊢
        linarith
      rw [hflip]
      constructor
      · rintro ⟨hE, h⟩
        have hEneg : ((y - D ^ 2 - x : ℚ) : ℝ) < 0 := by exact_mod_cast hE
        have hnE : (0:ℝ) < -((y - D ^ 2 - x : ℚ) : ℝ) := by linarith
        have : Real.sqrt ((4 * D ^ 2 * x : ℚ) : ℝ) < -((y - D ^ 2 - x : ℚ) : ℝ) := by
          rw [Real.sqrt_lt' hnE]
          calc ((4 * D ^ 2 * x : ℚ) : ℝ)
              < (((y - D ^ 2 - x) ^ 2 : ℚ) : ℝ) := by exact_mod_cast h
            _ = (-((y - D ^ 2 - x : ℚ) : ℝ)) ^ 2 := by push_cast; ring
        linarith
      · intro h
        have hs4 : (0:ℝ) ≤ Real.sqrt ((4 * D ^ 2 * x : ℚ) : ℝ) := Real.sqrt_nonneg _
        have hEneg : ((y - D ^ 2 - x : ℚ) : ℝ) < 0 := by linarith
        have hE : y - D ^ 2 - x < 0 := by exact_mod_cast hEneg
        refine ⟨hE, ?_⟩
        have hnE : (0:ℝ) < -((y - D ^ 2 - x : ℚ) : ℝ) := by linarith
        have h2 : Real.sqrt ((4 * D ^ 2 * x : ℚ) : ℝ) < -((y - D ^ 2 - x : ℚ) : ℝ) := by
          linarith
        have h3 := (Real.sqrt_lt' hnE).mp h2
        have : ((4 * D ^ 2 * x : ℚ) : ℝ) < (((y - D ^ 2 - x) ^ 2 : ℚ) : ℝ) := by
          calc ((4 * D ^ 2 * x : ℚ) : ℝ)
              < (-((y - D ^ 2 - x : ℚ) : ℝ)) ^ 2 := h3
            _ = (((y - D ^ 2 - x) ^ 2 : ℚ) : ℝ) := by push_cast; ring
        exact_mod_cast this
  · have hnot : ¬ ((if 0 ≤ D then decide (0 < D) || decide (0 < x)
        else decide (D ^ 2 < x)) = true) := by
      rw [hpos]; exact hP
    rw [if_neg hnot]
    simp only [Bool.false_eq_true, false_iff, not_lt]
    push_neg at hP
    linarith

lemma sqrt_hundred_mul (d : ℚ) :
    Real.sqrt ((100 * d : ℚ) : ℝ) = 10 * Real.sqrt ((d : ℚ) : ℝ) := by
  have h : ((100 * d : ℚ) : ℝ) = 10 ^ 2 * (d : ℝ) := by push_cast; ring
  rw [h, Real.sqrt_mul (by positivity) ((d:ℚ):ℝ), Real.sqrt_sq (by norm_num)]

/-- Decides `scoreFace g w h < scoreFace f w h` exactly (the float comparison
performed inside `max(faces, key=score_face)`). -/
def scoreGt (f g : Face) (w h : ℚ) : Bool :=
  sqrtAddGt (bboxArea f.bbox - bboxArea g.bbox)
    (100 * distSq g.bbox w h) (100 * distSq f.bbox w h)

lemma distSq_nonneg (b : BBox) (w h : ℚ) : 0 ≤ distSq b w h := by
  unfold distSq; positivity

lemma scoreGt_iff (f g : Face) (w h : ℚ) :
    scoreGt f g w h = true ↔ scoreFace g w h < scoreFace f w h := by
  unfold scoreGt
  rw [sqrtAddGt_iff _ _ _
    (mul_nonneg (by norm_num) (distSq_nonneg g.bbox w h))
    (mul_nonneg (by norm_num) (distSq_nonneg f.bbox w h))]
  rw [sqrt_hundred_mul, sqrt_hundred_mul]
  unfold scoreFace
  push_cast
  constructor <;> intro h' <;> linarith

/-- Python `max(iterable, key=k)` with a strict-greater test `gt`:
iterates left to right, replacing the current best exactly when the new
element compares strictly greater, so the first maximum is kept. -/
def pyMaxBy (gt : Face → Face → Bool) : Face → List Face → Face
  | b, [] => b
  | b, x :: t => pyMaxBy gt (if gt x b then x else b) t

/-- `select_main_face` (lines 92-116): `None` on an empty list, the sole
element of a singleton, otherwise the score-maximal face, ties keeping the
earliest (Python `max` is a stable first-max). -/
def selectMainFace (faces : List Face) (w h : ℚ) : Option Face :=
  match faces with
  | [] => none
  | [f] => some f
  | f :: rest => some (pyMaxBy (fun a c => scoreGt a c w h) f rest)

lemma pyMax_spec (w h : ℚ) (l : List Face) (b : Face) :
    (pyMaxBy (fun a c => scoreGt a c w h) b l = b ∧
      ∀ x ∈ l, scoreFace x w h ≤ scoreFace b w h) ∨
    (∃ l₁ l₂, l = l₁ ++ (pyMaxBy (fun a c => scoreGt a c w h) b l) :: l₂ ∧
      scoreFace b w h < scoreFace (pyMaxBy (fun a c => scoreGt a c w h) b l) w h ∧
      (∀ x ∈ l₁, scoreFace x w h < scoreFace (pyMaxBy (fun a c => scoreGt a c w h) b l) w h) ∧
      (∀ x ∈ l₂, scoreFace x w h ≤ scoreFace (pyMaxBy (fun a c => scoreGt a c w h) b l) w h)) := by
  induction l generalizing b with
  | nil =>
    left
    exact ⟨rfl, by simp⟩
  | cons x t ih =>
    by_cases hgt : scoreGt x b w h = true
    · have hbx : scoreFace b w h < scoreFace x w h := (scoreGt_iff x b w h).mp hgt
      have hstep : pyMaxBy (fun a c => scoreGt a c w h) b (x :: t)
          = pyMaxBy (fun a c => scoreGt a c w h) x t := by
        simp [pyMaxBy, hgt]
      rcases ih x with ⟨heq, hall⟩ | ⟨l₁, l₂, hsplit, hlt, hl₁, hl₂⟩
      · right
        refine ⟨[], t, ?_, ?_, ?_, ?_⟩
        · simp [hstep, heq]
        · rw [hstep, heq]; exact hbx
        · simp
        · rw [hstep, heq]; exact hall
      · right
        refine ⟨x :: l₁, l₂, ?_, ?_, ?_, ?_⟩
        · rw [hstep]
          simp only [List.cons_append]
          exact congrArg (List.cons x) hsplit
        · rw [hstep]; exact hbx.trans hlt
        · intro y hy
          rcases List.mem_cons.mp hy with hyx | hyl
          · subst hyx; rw [hstep]; exact hlt
          · rw [hstep]; exact hl₁ y hyl
        · rw [hstep]; exact hl₂
    · have hxb : scoreFace x w h ≤ scoreFace b w h := by
        by_contra hcon
        push_neg at hcon
        exact hgt ((scoreGt_iff x b w h).mpr hcon)
      have hstep : pyMaxBy (fun a c => scoreGt a c w h) b (x :: t)
          = pyMaxBy (fun a c => scoreGt a c w h) b t := by
        simp [pyMaxBy, hgt]
      rcases ih b with ⟨heq, hall⟩ | ⟨l₁, l₂, hsplit, hlt, hl₁, hl₂⟩
      · left
        refine ⟨hstep.trans heq, ?_⟩
        intro y hy
        rcases List.mem_cons.mp hy with hyx | hyl
        · subst hyx; exact hxb
        · exact hall y hyl
      · right
        refine ⟨x :: l₁, l₂, ?_, ?_, ?_, ?_⟩
        · rw [hstep]
          simp only [List.cons_append]
          exact congrArg (List.cons x) hsplit
        · rw [hstep]; exact hlt
        · intro y hy
          rcases List.mem_cons.mp hy with hyx | hyl
          · subst hyx; rw [hstep]; exact lt_of_le_of_lt hxb hlt
          · rw [hstep]; exact hl₁ y hyl
        · rw [hstep]; exact hl₂

/-- Full behavioural specification of `select_main_face`: empty input fails,
singleton passes through, otherwise the result is a stable first-maximum of
the score. -/
lemma selectMainFace_spec (faces : List Face) (w h : ℚ) :
    (faces = [] → selectMainFace faces w h = none) ∧
    (∀ f, faces = [f] → selectMainFace faces w h = some f) ∧
    (2 ≤ faces.length →
      ∃ g pre post, selectMainFace faces w h = some g ∧
        faces = pre ++ g :: post ∧
        (∀ f ∈ faces, scoreFace f w h ≤ scoreFace g w h) ∧
        (∀ f ∈ pre, scoreFace f w h < scoreFace g w h)) := by
  refine ⟨?_, ?_, ?_⟩
  · intro hf; subst hf; rfl
  · intro f hf; subst hf; rfl
  · intro hlen
    match faces, hlen with
    | f :: x :: t, _ =>
      have hsel : selectMainFace (f :: x :: t) w h
          = some (pyMaxBy (fun a c => scoreGt a c w h) f (x :: t)) := rfl
      rcases pyMax_spec w h (x :: t) f with ⟨heq, hall⟩ | ⟨l₁, l₂, hsplit, hlt, hl₁, hl₂⟩
      · refine ⟨f, [], x :: t, by rw [hsel, heq], by simp, ?_, by simp⟩
        intro y hy
        rcases List.mem_cons.mp hy with hyf | hyl
        · subst hyf; exact le_refl _
        · exact hall y hyl
      · refine ⟨pyMaxBy (fun a c => scoreGt a c w h) f (x :: t), f :: l₁, l₂,
          hsel, by simp only [List.cons_append]; exact congrArg (List.cons f) hsplit, ?_, ?_⟩
        · intro y hy
          rcases List.mem_cons.mp hy with hyf | hyl
          · subst hyf; exact le_of_lt hlt
          · rw [hsplit] at hyl
            rcases List.mem_append.mp hyl with hy1 | hy2
            · exact le_of_lt (hl₁ y hy1)
            · rcases List.mem_cons.mp hy2 with hyg | hyl2
              · subst hyg; exact le_refl _
              · exact hl₂ y hyl2
        · intro y hy
          rcases List.mem_cons.mp hy with hyf | hyl
          · subst hyf; exact hlt
          · exact hl₁ y hyl

/-- A face strictly outscoring every other listed face is the one selected
(for lists of length at least 2). -/
lemma selectMainFace_eq_of_strict (faces : List Face) (w h : ℚ) (g : Face)
    (hg : g ∈ faces) (hlen : 2 ≤ faces.length)
    (hdom : ∀ f ∈ faces, f ≠ g → scoreFace f w h < scoreFace g w h) :
    selectMainFace faces w h = some g := by
  obtain ⟨r, pre, post, hsel, hsplit, hmax, -⟩ :=
    (selectMainFace_spec faces w h).2.2 hlen
  have hrmem : r ∈ faces := by rw [hsplit]; simp
  by_cases hrg : r = g
  · rw [hsel, hrg]
  · have h1 := hdom r hrmem hrg
    have h2 := hmax g hg
    exact absurd (lt_of_le_of_lt h2 h1) (lt_irrefl _)

/-- A 2x3 affine matrix as returned by `cv2.estimateAffinePartial2D`. -/
structure Transform where
  m00 : ℚ
  m01 : ℚ
  m02 : ℚ
  m10 : ℚ
  m11 : ℚ
  m12 : ℚ
deriving DecidableEq, Repr

/-- `compute_similarity_transform` (lines 119-135), parametric in the external
estimator `E` (`cv2.estimateAffinePartial2D`): a first attempt on exactly the
first 3 landmark pairs (`src_pts[:3]`, `dst_pts[:3]`), and on failure a retry
of the same estimator on the full point lists. -/
def computeSimilarityTransform {α : Type} (E : List Pt → List Pt → Option α)
    (srcPts dstPts : List Pt) : Option α :=
  match E (srcPts.take 3) (dstPts.take 3) with
  | some t => some t
  | none => E srcPts dstPts

/-- Horizontal half-axis of the face-only mask ellipse (lines 148, 154):
`int(((x2 - x1) * expansion) / 2)`. -/
def faceMaskHorizHalfAxis (b : BBox) (expansion : ℚ) : ℤ :=
  pyInt ((b.x2 - b.x1) * expansion / 2)

/-- Vertical half-axis of the face-only mask ellipse (lines 149, 154):
`int(((y2 - y1) * expansion * 1.2) / 2)`. -/
def faceMaskVertHalfAxis (b : BBox) (expansion : ℚ) : ℤ :=
  pyInt ((b.y2 - b.y1) * expansion * (12/10) / 2)

/-- Horizontal half-axis of the hair-extended mask ellipse (lines 173, 182). -/
def hairMaskHorizHalfAxis (b : BBox) (expansion : ℚ) : ℤ :=
  pyInt ((b.x2 - b.x1) * expansion / 2)

/-- Vertical half-axis of the hair-extended mask ellipse (lines 174, 181-182):
`int(((y2 - y1) * expansion) * 1.5 / 2)`. -/
def hairMaskVertHalfAxis (b : BBox) (expansion : ℚ) : ℤ :=
  pyInt ((b.y2 - b.y1) * expansion * (15/10) / 2)

/-- Model of `cv2.ellipse(mask, center, axes, 0, 0, 360, 255, -1)` on a zeroed
`h x w` single-channel canvas: the ideal filled ellipse with the given integer
center and half-axes (a degenerate half-axis draws nothing; the actual
rasterizer would draw a segment of measure zero there). -/
def ellipseMask (hgt wid : ℕ) (cx cy a bAx : ℤ) : List (List ℕ) :=
  (List.range hgt).map fun y =>
    (List.range wid).map fun x =>
      if 0 < a ∧ 0 < bAx ∧
          bAx ^ 2 * ((x : ℤ) - cx) ^ 2 + a ^ 2 * ((y : ℤ) - cy) ^ 2 ≤ a ^ 2 * bAx ^ 2
      then 255 else 0

/-- `create_face_mask` (lines 138-160).  `gaussianBlur` is the external
`cv2.GaussianBlur` taking the kernel half-size pair value and sigma; the
`landmarks` parameter is accepted and, as in the source, never used. -/
def createFaceMask (gaussianBlur : ℕ → ℕ → List (List ℕ) → List (List ℕ))
    (hgt wid : ℕ) (_landmarks : List Pt) (b : BBox) (expansion : ℚ) : List (List ℕ) :=
  let faceH := (b.y2 - b.y1) * expansion * (12/10)
  let centerX := pyInt ((b.x1 + b.x2) / 2)
  let centerY := pyInt ((b.y1 + b.y2) / 2 - faceH * (5/100))
  gaussianBlur 31 15
    (ellipseMask hgt wid centerX centerY
      (faceMaskHorizHalfAxis b expansion) (faceMaskVertHalfAxis b expansion))

/-- `create_hair_extended_mask` (lines 163-189); `landmarks` again unused. -/
def createHairExtendedMask (gaussianBlur : ℕ → ℕ → List (List ℕ) → List (List ℕ))
    (hgt wid : ℕ) (_landmarks : List Pt) (b : BBox) (expansion : ℚ) : List (List ℕ) :=
  let faceH := (b.y2 - b.y1) * expansion
  let centerX := pyInt ((b.x1 + b.x2) / 2)
  let centerY := pyInt ((b.y1 + b.y2) / 2 - faceH * (15/100))
  gaussianBlur 41 20
    (ellipseMask hgt wid centerX centerY
      (hairMaskHorizHalfAxis b expansion) (hairMaskVertHalfAxis b expansion))

/-- `np.any(mask_bool)` for the threshold `mask > 128` (line 202). -/
def anyMask (mask : List ℕ) : Bool :=
  mask.any fun m => 128 < m

/-- Channel values at positions where the mask exceeds 128
(`channel[mask_bool]`). -/
def maskedVals (vals : List ℚ) (mask : List ℕ) : List ℚ :=
  ((vals.zip mask).filter fun p => 128 < p.2).map Prod.fst

/-- The sample a channel statistic is computed over (lines 212-215): the
masked region when the mask selects any pixel, the whole channel otherwise. -/
def statsBase (vals : List ℚ) (mask : List ℕ) : List ℚ :=
  if anyMask mask then maskedVals vals mask else vals

/-- `np.mean` over a list of exact values. -/
def meanQ (l : List ℚ) : ℚ :=
  l.sum / l.length

/-- Population variance, the square of `np.std`. -/
def varQ (l : List ℚ) : ℚ :=
  ((l.map fun x => (x - meanQ l) ^ 2).sum) / l.length

/-- `np.std` (population standard deviation) as an exact real. -/
noncomputable def stdR (l : List ℚ) : ℝ :=
  Real.sqrt ((varQ l : ℚ) : ℝ)

/-- One channel of `color_match_lab` before clipping (lines 207-222):
`(x - src_mean) * (tgt_std / src_std) + tgt_mean`, with the source standard
deviation clamped to at least 1 (the clamp test `src_std < 1` is equivalent
to `var < 1`). -/
noncomputable def colorMatchChannel (src tgt : List ℚ) (mask : List ℕ) : List ℝ :=
  let ss := statsBase src mask
  let ts := statsBase tgt mask
  let srcMean := meanQ ss
  let tgtMean := meanQ ts
  let tgtStd := stdR ts
  let srcStd : ℝ := if varQ ss < 1 then 1 else stdR ss
  src.map fun x => (((x : ℚ) : ℝ) - (srcMean : ℝ)) * (tgtStd / srcStd) + (tgtMean : ℝ)

/-- `np.clip(v, 0, 255)` (line 225). -/
noncomputable def clip255 (v : ℝ) : ℝ :=
  max 0 (min v 255)

/-- One channel of `color_match_lab` after `np.clip(..., 0, 255)`. -/
noncomputable def colorMatchChannelClipped (src tgt : List ℚ) (mask : List ℕ) : List ℝ :=
  (colorMatchChannel src tgt mask).map clip255

/-- One channel of `color_match_lab` after the final `astype(np.uint8)`
(truncation; the preceding clip keeps every value inside `[0, 255]`). -/
noncomputable def colorMatchChannelU8 (src tgt : List ℚ) (mask : List ℕ) : List ℕ :=
  (colorMatchChannelClipped src tgt mask).map fun v => (⌊v⌋).toNat

/-- A LAB image as a pixel list of exact channel values (the source casts the
converted array to `float32` before taking statistics). -/
abbrev LabImage : Type := List (ℚ × ℚ × ℚ)

/-- A BGR image: dimensions plus a row-major pixel list of `uint8` channels. -/
structure Img where
  hgt : ℕ
  wid : ℕ
  pix : List (ℕ × ℕ × ℕ)
deriving DecidableEq, Repr

/-- The three independent channel transfers of `color_match_lab` recombined. -/
noncomputable def colorMatchLabCore (src tgt : LabImage) (mask : List ℕ) :
    List (ℕ × ℕ × ℕ) :=
  let c0 := colorMatchChannelU8 (src.map fun p => p.1) (tgt.map fun p => p.1) mask
  let c1 := colorMatchChannelU8 (src.map fun p => p.2.1) (tgt.map fun p => p.2.1) mask
  let c2 := colorMatchChannelU8 (src.map fun p => p.2.2) (tgt.map fun p => p.2.2) mask
  c0.zip (c1.zip c2)

/-- `color_match_lab` (lines 192-228); the BGR/LAB conversions are the
external `cv2.cvtColor`, passed in as `toLab` / `fromLab`. -/
noncomputable def colorMatchLab (toLab : Img → LabImage)
    (fromLab : List (ℕ × ℕ × ℕ) → Img) (source target : Img) (mask : List ℕ) : Img :=
  fromLab (colorMatchLabCore (toLab source) (toLab target) mask)

/-- Python `int(...)` followed by the `uint8` store of `astype(np.uint8)`:
truncation toward zero; an out-of-range value is modelled as wrapping of the
truncated integer (every verified use stays inside `[0, 255]`). -/
def pyU8 (q : ℚ) : ℕ :=
  (pyInt q).toNat % 256

/-- One channel of the alpha-blend fallback (lines 242-245):
`src * alpha + dst * (1 - alpha)` with `alpha = mask / 255`, truncated to
`uint8`. -/
def alphaBlendChan (s d m : ℕ) : ℕ :=
  pyU8 ((s : ℚ) * ((m : ℚ) / 255) + (d : ℚ) * (1 - (m : ℚ) / 255))

/-- The alpha-blend fallback applied to each pixel; the same normalized mask
value weights all three channels (`np.dstack([mask_float] * 3)`). -/
def alphaBlendPix (s d : ℕ × ℕ × ℕ) (m : ℕ) : ℕ × ℕ × ℕ :=
  (alphaBlendChan s.1 d.1 m, alphaBlendChan s.2.1 d.2.1 m, alphaBlendChan s.2.2 d.2.2 m)

/-- The alpha-blend fallback over whole images (mask flattened row-major). -/
def alphaBlend (src dst : Img) (mask : List ℕ) : Img :=
  { hgt := src.hgt, wid := src.wid,
    pix := (src.pix.zip (dst.pix.zip mask)).map fun p => alphaBlendPix p.1 p.2.1 p.2.2 }

/-- `seamless_clone_safe` (lines 231-246): the primary `cv2.seamlessClone`
is external and may fail (`Except.error`); on failure the alpha-blend
fallback runs and the method tag flips to `"alpha_blend"`. -/
def seamlessCloneSafe
    (primary : Img → Img → List (List ℕ) → ℤ × ℤ → Except String Img)
    (src dst : Img) (mask : List (List ℕ)) (center : ℤ × ℤ) : Img × String :=
  match primary src dst mask center with
  | .ok r => (r, "seamless_clone")
  | .error _ => (alphaBlend src dst mask.flatten, "alpha_blend")

/-- `max(faces, key=lambda f: area)` of line 77: first maximum by bbox area. -/
def pyMaxByArea (f : Face) (rest : List Face) : Face :=
  pyMaxBy (fun a c => decide (bboxArea c.bbox < bboxArea a.bbox)) f rest

/-- `detect_face_landmarks` (lines 62-89): `app` is the (possibly absent)
detector handle, `getResult` the outcome of the external `face_app.get`
call (an exception, `None`, or a face list).  Any failure collapses to
`(None, None, False)`, modelled as `none`. -/
def detectFaceLandmarks (app : Option ℕ)
    (getResult : Except String (Option (List Face))) : Option (List Pt × BBox) :=
  match app with
  | none => none
  | some _ =>
    match getResult with
    | .error _ => none
    | .ok none => none
    | .ok (some []) => none
    | .ok (some (f :: rest)) =>
      let best := pyMaxByArea f rest
      match best.kps with
      | none => none
      | some k => some (k, best.bbox)

/-- Environment of one `composite_face` invocation: the current detector
handle, the decoded images (`cv2.imread` returning `None` on failure), the
outcomes of the two external detection calls, and the external OpenCV
primitives.  `imwriteOk` is the Boolean returned by `cv2.imwrite`. -/
structure CompositeEnv where
  faceApp : Option ℕ
  heroImg : Option Img
  pageImg : Option Img
  heroGet : Except String (Option (List Face))
  pageGet : Except String (Option (List Face))
  estimator : List Pt → List Pt → Option Transform
  warpAffine : Img → Transform → ℕ → ℕ → Img
  gaussianBlur : ℕ → ℕ → List (List ℕ) → List (List ℕ)
  toLab : Img → LabImage
  fromLab : List (ℕ × ℕ × ℕ) → Img
  seamlessClone : Img → Img → List (List ℕ) → ℤ × ℤ → Except String Img
  imwriteOk : Bool

/-- The result dictionary of the pipeline: the failure variant carries the
`error` and `message` fields; the success variant carries `output_path`,
`blend_method` and both bboxes (`transform_applied` is the constant `true`
in the source and is left implicit). -/
inductive CompositeResult where
  | failure (error : String) (message : String)
  | success (outputPath : String) (blendMethod : String) (heroBbox pageBbox : BBox)
deriving DecidableEq, Repr

/-- `composite_face` (lines 249-375), embedded match-by-match.  The result of
`cv2.imwrite` (line 366) is bound and, as in the source, never inspected. -/
noncomputable def compositeFace (env : CompositeEnv)
    (heroHeadPath pageImagePath outputPath : String) (includeHair : Bool) :
    CompositeResult :=
  match env.faceApp with
  | none => .failure "FACE_DETECTOR_UNAVAILABLE" "InsightFace not available"
  | some _ =>
    match env.heroImg with
    | none => .failure "HERO_HEAD_NOT_FOUND" ("Cannot read hero_head: " ++ heroHeadPath)
    | some hero =>
      match env.pageImg with
      | none => .failure "PAGE_IMAGE_NOT_FOUND" ("Cannot read page image: " ++ pageImagePath)
      | some page =>
        match detectFaceLandmarks env.faceApp env.heroGet with
        | none => .failure "NO_FACE_IN_HERO" "No face detected in hero_head image"
        | some (heroLandmarks, heroBbox) =>
          match env.pageGet with
          | .error e => .failure "PAGE_FACE_DETECTION_FAILED" e
          | .ok pageFaces =>
            match (match pageFaces with
                   | none => none
                   | some [] => none
                   | some (f :: rest) => selectMainFace (f :: rest) page.wid page.hgt) with
            | none => .failure "NO_FACE_IN_PAGE" "No face detected in page image"
            | some mainFace =>
              match mainFace.kps with
              | none => .failure "PAGE_FACE_DETECTION_FAILED" "kps is None"
              | some pageLandmarks =>
                match computeSimilarityTransform env.estimator heroLandmarks pageLandmarks with
                | none => .failure "TRANSFORM_FAILED" "Could not compute similarity transform"
                | some transform =>
                  let pageBbox := mainFace.bbox
                  let warpedHero := env.warpAffine hero transform page.wid page.hgt
                  let mask := if includeHair
                    then createHairExtendedMask env.gaussianBlur page.hgt page.wid
                      pageLandmarks pageBbox (14/10)
                    else createFaceMask env.gaussianBlur page.hgt page.wid
                      pageLandmarks pageBbox (13/10)
                  let warpedHeroMatched :=
                    colorMatchLab env.toLab env.fromLab warpedHero page mask.flatten
                  let centerX := pyInt ((pageBbox.x1 + pageBbox.x2) / 2)
                  let centerY0 := pyInt ((pageBbox.y1 + pageBbox.y2) / 2)
                  let centerY := if includeHair
                    then pyInt ((centerY0 : ℚ) - (pageBbox.y2 - pageBbox.y1) * (1/10))
                    else centerY0
                  let blended := seamlessCloneSafe env.seamlessClone warpedHeroMatched page
                    mask (centerX, centerY)
                  let result := blended.1
                  let blendMethod := blended.2
                  let _writeOk := env.imwriteOk
                  let _saved := result
                  .success outputPath blendMethod heroBbox pageBbox

/-- Environment of one CLI invocation of `main` (lines 378-441). -/
structure MainEnv where
  depsAvailable : Bool
  importError : String
  insightfaceAvailable : Bool
  heroExists : Bool
  pageExists : Bool
  heroHeadPath : String
  pageImagePath : String
  outputPath : String
  noHair : Bool
  cenv : CompositeEnv

/-- `main` (lines 378-441): dependency and input-file guards, then the
pipeline; `include_hair = not args.no_hair`. -/
noncomputable def mainRun (env : MainEnv) : CompositeResult :=
  if !env.depsAvailable then
    .failure "DEPENDENCIES_MISSING" ("Required packages not installed: " ++ env.importError)
  else if !env.insightfaceAvailable then
    .failure "INSIGHTFACE_MISSING"
      "InsightFace not installed. Install with: pip install insightface"
  else if !env.heroExists then
    .failure "HERO_HEAD_NOT_FOUND" ("Hero head not found: " ++ env.heroHeadPath)
  else if !env.pageExists then
    .failure "PAGE_IMAGE_NOT_FOUND" ("Page image not found: " ++ env.pageImagePath)
  else
    compositeFace env.cenv env.heroHeadPath env.pageImagePath env.outputPath (!env.noHair)

/-- The eight error kinds enumerated by the specification. -/
def specErrorKinds : List String :=
  ["DEPENDENCIES_MISSING", "FACE_DETECTOR_UNAVAILABLE", "HERO_HEAD_NOT_FOUND",
   "PAGE_IMAGE_NOT_FOUND", "NO_FACE_IN_HERO", "NO_FACE_IN_PAGE",
   "PAGE_FACE_DETECTION_FAILED", "TRANSFORM_FAILED"]

/-- The error kinds the program can actually report: the eight of the
specification plus `INSIGHTFACE_MISSING` (line 401 of the source). -/
def codeErrorKinds : List String :=
  ["DEPENDENCIES_MISSING", "INSIGHTFACE_MISSING", "FACE_DETECTOR_UNAVAILABLE",
   "HERO_HEAD_NOT_FOUND", "PAGE_IMAGE_NOT_FOUND", "NO_FACE_IN_HERO",
   "NO_FACE_IN_PAGE", "PAGE_FACE_DETECTION_FAILED", "TRANSFORM_FAILED"]

/-- Outcome of one attempt to construct and prepare the InsightFace handle:
the constructor itself raises, the constructor succeeds but `prepare`
raises, or both succeed. -/
inductive InitOutcome where
  | ctorFails
  | prepFails (handle : ℕ)
  | succeeds (handle : ℕ)
deriving DecidableEq, Repr

/-- The process-wide state around `_face_app` (line 47), with `attempts` as
ghost instrumentation counting invocations of the `FaceAnalysis(...)`
constructor. -/
structure FaceAppState where
  faceApp : Option ℕ
  attempts : ℕ
deriving DecidableEq, Repr

/-- The state at process start: `_face_app = None`, no attempt made. -/
def initialFaceAppState : FaceAppState :=
  { faceApp := none, attempts := 0 }

/-- One call to `get_face_app` (lines 49-59).  If `_face_app` is `None` and
InsightFace imported, a construction attempt runs: a constructor exception
leaves `_face_app` as `None` and returns `None`; an exception inside
`prepare` happens after `_face_app` was already assigned, so the broken
handle stays cached while `None` is returned; on success the handle is
cached and returned.  Otherwise the current `_face_app` is returned. -/
def getFaceApp (available : Bool) (outcomes : ℕ → InitOutcome) (s : FaceAppState) :
    Option ℕ × FaceAppState :=
  if s.faceApp = none ∧ available = true then
    match outcomes s.attempts with
    | .ctorFails => (none, { faceApp := none, attempts := s.attempts + 1 })
    | .prepFails a => (none, { faceApp := some a, attempts := s.attempts + 1 })
    | .succeeds a => (some a, { faceApp := some a, attempts := s.attempts + 1 })
  else (s.faceApp, s)

/-- The state after `n` successive calls to `get_face_app` in one process. -/
def runGetFaceApp (available : Bool) (outcomes : ℕ → InitOutcome) : ℕ → FaceAppState
  | 0 => initialFaceAppState
  | n + 1 => (getFaceApp available outcomes (runGetFaceApp available outcomes n)).2

/-- C8: mask noninterference on landmarks.  For every blur primitive, image
shape, bounding box and expansion factor, both mask variants return the same
mask for any two landmark inputs: the output depends only on the shape and
the destination bounding box, never on the landmark argument. -/
theorem C8_mask_landmark_noninterference
    (gaussianBlur : ℕ → ℕ → List (List ℕ) → List (List ℕ))
    (hgt wid : ℕ) (b : BBox) (expansion : ℚ) (l₁ l₂ : List Pt) :
    createFaceMask gaussianBlur hgt wid l₁ b expansion
      = createFaceMask gaussianBlur hgt wid l₂ b expansion ∧
    createHairExtendedMask gaussianBlur hgt wid l₁ b expansion
      = createHairExtendedMask gaussianBlur hgt wid l₂ b expansion :=
  ⟨rfl, rfl⟩

/-- C5: Blender fallback.  If the primary seamless-clone operation fails,
the method tag is "alpha_blend" and every result channel equals the alpha
formula `src * (m/255) + dst * (1 - m/255)` (truncated to `uint8`), the same
normalized mask weight on all three channels; if the primary succeeds, the
tag is "seamless_clone". -/
theorem C5_blender_fallback
    (primary : Img → Img → List (List ℕ) → ℤ × ℤ → Except String Img)
    (src dst : Img) (mask : List (List ℕ)) (center : ℤ × ℤ) :
    (∀ e, primary src dst mask center = .error e →
      seamlessCloneSafe primary src dst mask center
        = (⟨src.hgt, src.wid,
            (src.pix.zip (dst.pix.zip mask.flatten)).map fun p =>
              (pyU8 ((p.1.1 : ℚ) * ((p.2.2 : ℚ) / 255)
                  + (p.2.1.1 : ℚ) * (1 - (p.2.2 : ℚ) / 255)),
               pyU8 ((p.1.2.1 : ℚ) * ((p.2.2 : ℚ) / 255)
                  + (p.2.1.2.1 : ℚ) * (1 - (p.2.2 : ℚ) / 255)),
               pyU8 ((p.1.2.2 : ℚ) * ((p.2.2 : ℚ) / 255)
                  + (p.2.1.2.2 : ℚ) * (1 - (p.2.2 : ℚ) / 255)))⟩,
           "alpha_blend")) ∧
    (∀ r, primary src dst mask center = .ok r →
      seamlessCloneSafe primary src dst mask center = (r, "seamless_clone")) := by
  constructor
  · intro e he
    unfold seamlessCloneSafe
    rw [he]
    rfl
  · intro r hr
    unfold seamlessCloneSafe
    rw [hr]

def blendSrcW : Img := ⟨1, 1, [(10, 20, 30)]⟩

def blendDstW : Img := ⟨1, 1, [(100, 110, 120)]⟩

def blendMaskW : List (List ℕ) := [[51]]

/-- C5 witness: a failing primary yields the alpha-blend result
`(82, 92, 102)` for mask weight `51/255 = 0.2`, tag "alpha_blend"; a
succeeding primary keeps its output and the tag "seamless_clone". -/
theorem C5_blender_fallback_witness :
    seamlessCloneSafe (fun _ _ _ _ => .error "numerical failure")
      blendSrcW blendDstW blendMaskW (0, 0) = (⟨1, 1, [(82, 92, 102)]⟩, "alpha_blend") ∧
    seamlessCloneSafe (fun _ _ _ _ => .ok blendDstW)
      blendSrcW blendDstW blendMaskW (0, 0) = (blendDstW, "seamless_clone") := by
  constructor
  · have h := (C5_blender_fallback (fun _ _ _ _ => .error "numerical failure")
      blendSrcW blendDstW blendMaskW (0, 0)).1 "numerical failure" rfl
    rw [h]
    simp only [blendSrcW, blendDstW, blendMaskW, List.flatten, List.append_nil,
      List.zip_cons_cons, List.zip_nil_right, List.map_cons, List.map_nil]
    norm_num [pyU8, pyInt]
    decide
  · exact (C5_blender_fallback (fun _ _ _ _ => .ok blendDstW)
      blendSrcW blendDstW blendMaskW (0, 0)).2 blendDstW rfl

/-- C6: the transform estimator first runs on exactly the first 3 landmark
pairs; when that attempt succeeds its result is returned and the 5-point
behaviour of the estimator is never consulted; exactly when it fails the
same estimator reruns on the full lists; and when both attempts fail the
orchestrator reports `TRANSFORM_FAILED` and aborts with no substituted
transform. -/
theorem C6_transform_two_stage :
    (∀ (E : List Pt → List Pt → Option Transform) (srcPts dstPts : List Pt)
        (t : Transform),
      E (srcPts.take 3) (dstPts.take 3) = some t →
      computeSimilarityTransform E srcPts dstPts = some t) ∧
    (∀ (E₁ E₂ : List Pt → List Pt → Option Transform) (srcPts dstPts : List Pt),
      E₁ (srcPts.take 3) (dstPts.take 3) = E₂ (srcPts.take 3) (dstPts.take 3) →
      (E₁ (srcPts.take 3) (dstPts.take 3)).isSome = true →
      computeSimilarityTransform E₁ srcPts dstPts
        = computeSimilarityTransform E₂ srcPts dstPts) ∧
    (∀ (E : List Pt → List Pt → Option Transform) (srcPts dstPts : List Pt),
      E (srcPts.take 3) (dstPts.take 3) = none →
      computeSimilarityTransform E srcPts dstPts = E srcPts dstPts) ∧
    (∀ (env : CompositeEnv) (hp pp op : String) (ih : Bool) (hero page : Img)
        (hl : List Pt) (hb : BBox) (f : Face) (fs : List Face) (mf : Face)
        (pl : List Pt) (a : ℕ),
      env.faceApp = some a →
      env.heroImg = some hero →
      env.pageImg = some page →
      detectFaceLandmarks env.faceApp env.heroGet = some (hl, hb) →
      env.pageGet = .ok (some (f :: fs)) →
      selectMainFace (f :: fs) page.wid page.hgt = some mf →
      mf.kps = some pl →
      computeSimilarityTransform env.estimator hl pl = none →
      compositeFace env hp pp op ih
        = .failure "TRANSFORM_FAILED" "Could not compute similarity transform") := by
  refine ⟨?_, ?_, ?_, ?_⟩
  · intro E srcPts dstPts t h
    unfold computeSimilarityTransform
    rw [h]
  · intro E₁ E₂ srcPts dstPts heq hsome
    unfold computeSimilarityTransform
    rw [← heq]
    match hE : E₁ (srcPts.take 3) (dstPts.take 3) with
    | some t => rfl
    | none => rw [hE] at hsome; simp at hsome
  · intro E srcPts dstPts h
    unfold computeSimilarityTransform
    rw [h]
  · intro env hp pp op ih hero page hl hb f fs mf pl a ha hhero hpage hdet hpget hsel hkps htr
    rw [ha] at hdet
    unfold compositeFace
    simp only [ha, hhero, hpage, hdet, hpget, hsel, hkps, htr]

def transform0 : Transform := ⟨1, 0, 0, 0, 1, 0⟩

def heroFaceW : Face := ⟨some [(1, 1), (3, 1), (2, 2), (1, 3), (3, 3)], ⟨0, 0, 4, 4⟩⟩

def pageFaceW : Face := ⟨some [(5, 5), (7, 5), (6, 6), (5, 7), (7, 7)], ⟨4, 4, 8, 8⟩⟩

def heroImgW : Img := ⟨1, 1, [(1, 2, 3)]⟩

def pageImgW : Img := ⟨1, 1, [(4, 5, 6)]⟩

/-- A fully-succeeding environment except that the estimator finds no
solution on either point set. -/
def failTransformEnv : CompositeEnv :=
  ⟨some 0, some heroImgW, some pageImgW, .ok (some [heroFaceW]), .ok (some [pageFaceW]),
   fun _ _ => none, fun i _ _ _ => i, fun _ _ m => m,
   fun i => i.pix.map fun p => ((p.1 : ℚ), (p.2.1 : ℚ), (p.2.2 : ℚ)),
   fun l => ⟨1, 1, l⟩, fun _ _ _ _ => .ok ⟨1, 1, [(0, 0, 0)]⟩, true⟩

/-- C6 witness: on concrete inputs a 3-point success is returned unchanged,
and an estimator failing on both attempts drives the pipeline to the
`TRANSFORM_FAILED` outcome. -/
theorem C6_transform_two_stage_witness :
    computeSimilarityTransform (fun _ _ => some transform0)
      [((0:ℚ), (0:ℚ))] [((1:ℚ), (1:ℚ))] = some transform0 ∧
    compositeFace failTransformEnv "h.png" "p.png" "o.png" true
      = .failure "TRANSFORM_FAILED" "Could not compute similarity transform" := by
  constructor
  · exact C6_transform_two_stage.1 (fun _ _ => some transform0)
      [((0:ℚ), (0:ℚ))] [((1:ℚ), (1:ℚ))] transform0 rfl
  · exact C6_transform_two_stage.2.2.2 failTransformEnv "h.png" "p.png" "o.png" true
      heroImgW pageImgW [(1, 1), (3, 1), (2, 2), (1, 3), (3, 3)] ⟨0, 0, 4, 4⟩
      pageFaceW [] pageFaceW [(5, 5), (7, 5), (6, 6), (5, 7), (7, 7)] 0
      rfl rfl rfl rfl rfl rfl rfl rfl

/-- C2 counterexample: with the InsightFace constructor raising on every
attempt, the first call to `get_face_app` returns the failure (`None`), yet
the second call attempts construction again — after two calls the
constructor has run twice, so a prior initialization failure does not
short-circuit subsequent calls. -/
theorem C2_lazy_init_counterexample :
    (getFaceApp true (fun _ => .ctorFails) initialFaceAppState).1 = none ∧
    (runGetFaceApp true (fun _ => .ctorFails) 2).attempts = 2 := by
  constructor <;> rfl

/-- C2 amended: the handle is initialized at most once only in the sense
that once `_face_app` is non-`None` (after a successful construction, or a
construction whose `prepare` step failed) every later call returns the
cached handle without a new construction attempt; a failure inside the
constructor itself is not remembered — the cache stays `None`, the failing
call returns `None`, and the next call re-attempts construction. -/
theorem C2_lazy_init_amended (available : Bool) (outcomes : ℕ → InitOutcome)
    (s : FaceAppState) (a : ℕ) :
    (s.faceApp = some a → getFaceApp available outcomes s = (some a, s)) ∧
    (s.faceApp = none → available = true → outcomes s.attempts = .succeeds a →
      getFaceApp available outcomes s
        = (some a, { faceApp := some a, attempts := s.attempts + 1 })) ∧
    (s.faceApp = none → available = true → outcomes s.attempts = .ctorFails →
      getFaceApp available outcomes s
        = (none, { faceApp := none, attempts := s.attempts + 1 })) ∧
    (s.faceApp = none → available = true → outcomes s.attempts = .prepFails a →
      getFaceApp available outcomes s
        = (none, { faceApp := some a, attempts := s.attempts + 1 })) := by
  refine ⟨?_, ?_, ?_, ?_⟩
  · intro h
    unfold getFaceApp
    rw [if_neg]
    · rw [h]
    · rw [h]; simp
  · intro h hav hout
    unfold getFaceApp
    rw [if_pos ⟨h, hav⟩, hout]
  · intro h hav hout
    unfold getFaceApp
    rw [if_pos ⟨h, hav⟩, hout]
  · intro h hav hout
    unfold getFaceApp
    rw [if_pos ⟨h, hav⟩, hout]

/-- C2 witness: concrete runs of the amended statement — a cached handle is
returned unchanged, a successful first attempt caches, a constructor
failure leaves the cache empty with the attempt counted. -/
theorem C2_lazy_init_amended_witness :
    getFaceApp true (fun _ => .succeeds 7) ⟨some 7, 1⟩ = (some 7, ⟨some 7, 1⟩) ∧
    getFaceApp true (fun _ => .succeeds 7) ⟨none, 0⟩ = (some 7, ⟨some 7, 1⟩) ∧
    getFaceApp true (fun _ => .ctorFails) ⟨none, 0⟩ = (none, ⟨none, 1⟩) ∧
    getFaceApp true (fun _ => .prepFails 9) ⟨none, 0⟩ = (none, ⟨some 9, 1⟩) :=
  ⟨(C2_lazy_init_amended true (fun _ => .succeeds 7) ⟨some 7, 1⟩ 7).1 rfl,
   (C2_lazy_init_amended true (fun _ => .succeeds 7) ⟨none, 0⟩ 7).2.1 rfl rfl rfl,
   (C2_lazy_init_amended true (fun _ => .ctorFails) ⟨none, 0⟩ 0).2.2.1 rfl rfl rfl,
   (C2_lazy_init_amended true (fun _ => .prepFails 9) ⟨none, 0⟩ 9).2.2.2 rfl rfl rfl⟩

/-- C9 counterexample: for the box `(0, 0, 10, 1/2)` (with `x1 < x2` and
`y1 < y2`) the `int(...)` truncation collapses both vertical half-axes to
`0`, so the hair-extended vertical extent does not strictly exceed the
face-only one. -/
theorem C9_vertical_extent_counterexample :
    (0 : ℚ) < 10 ∧ (0 : ℚ) < 1/2 ∧
    hairMaskVertHalfAxis ⟨0, 0, 10, 1/2⟩ (14/10)
      = faceMaskVertHalfAxis ⟨0, 0, 10, 1/2⟩ (13/10) := by
  refine ⟨by norm_num, by norm_num, ?_⟩
  unfold hairMaskVertHalfAxis faceMaskVertHalfAxis pyInt
  norm_num

/-- C9 amended: for every bounding box with `x1 < x2`, `y1 < y2` and height
at least 4 (true of any real detected face), the vertical half-axis of the
hair-extended ellipse (`int(h*1.4*1.5/2)`) strictly exceeds that of the
face-only ellipse (`int(h*1.3*1.2/2)`); below that height the `int`
truncation can collapse the two. -/
theorem C9_vertical_extent_amended (b : BBox)
    (_hx : b.x1 < b.x2) (_hy : b.y1 < b.y2) (h4 : 4 ≤ b.y2 - b.y1) :
    faceMaskVertHalfAxis b (13/10) < hairMaskVertHalfAxis b (14/10) := by
  unfold faceMaskVertHalfAxis hairMaskVertHalfAxis pyInt
  have hh : (0 : ℚ) ≤ b.y2 - b.y1 := by linarith
  have h1 : (0 : ℚ) ≤ (b.y2 - b.y1) * (13/10) * (12/10) / 2 := by
    have : (0:ℚ) ≤ (13:ℚ)/10 * ((12:ℚ)/10) / 2 := by norm_num
    nlinarith
  have h2 : (0 : ℚ) ≤ (b.y2 - b.y1) * (14/10) * (15/10) / 2 := by nlinarith
  rw [if_pos h1, if_pos h2]
  have key : (b.y2 - b.y1) * (13/10) * (12/10) / 2 + 1
      ≤ (b.y2 - b.y1) * (14/10) * (15/10) / 2 := by nlinarith
  calc ⌊(b.y2 - b.y1) * (13/10) * (12/10) / 2⌋
      < ⌊(b.y2 - b.y1) * (13/10) * (12/10) / 2⌋ + 1 := by omega
    _ = ⌊(b.y2 - b.y1) * (13/10) * (12/10) / 2 + 1⌋ := by
        rw [Int.floor_add_one]
    _ ≤ ⌊(b.y2 - b.y1) * (14/10) * (15/10) / 2⌋ := Int.floor_le_floor key

/-- C9 witness: for the box `(0, 0, 10, 10)` the face-only vertical
half-axis is 7 and the hair-extended one 10, so the strict inequality of the
amended statement holds there. -/
theorem C9_vertical_extent_amended_witness :
    faceMaskVertHalfAxis ⟨0, 0, 10, 10⟩ (13/10)
      < hairMaskVertHalfAxis ⟨0, 0, 10, 10⟩ (14/10) :=
  C9_vertical_extent_amended ⟨0, 0, 10, 10⟩ (by norm_num) (by norm_num) (by norm_num)

/-- Every failure `composite_face` itself produces carries one of seven
error kinds. -/
lemma compositeFace_error_mem (env : CompositeEnv) (hp pp op : String) (ih : Bool)
    (e m : String) (h : compositeFace env hp pp op ih = .failure e m) :
    e ∈ ["FACE_DETECTOR_UNAVAILABLE", "HERO_HEAD_NOT_FOUND", "PAGE_IMAGE_NOT_FOUND",
      "NO_FACE_IN_HERO", "NO_FACE_IN_PAGE", "PAGE_FACE_DETECTION_FAILED",
      "TRANSFORM_FAILED"] := by
  unfold compositeFace at h
  repeat' split at h
  all_goals simp_all

/-- C1 amended: every failure the program reports carries exactly one error
kind, drawn from the nine-string set `codeErrorKinds` — the eight kinds of
the specification plus `INSIGHTFACE_MISSING`. -/
theorem C1_error_kinds_amended (env : MainEnv) (e m : String)
    (h : mainRun env = .failure e m) : e ∈ codeErrorKinds := by
  unfold mainRun at h
  repeat' split at h
  · simp only [CompositeResult.failure.injEq] at h
    rw [← h.1]
    simp [codeErrorKinds]
  · simp only [CompositeResult.failure.injEq] at h
    rw [← h.1]
    simp [codeErrorKinds]
  · simp only [CompositeResult.failure.injEq] at h
    rw [← h.1]
    simp [codeErrorKinds]
  · simp only [CompositeResult.failure.injEq] at h
    rw [← h.1]
    simp [codeErrorKinds]
  · have h7 := compositeFace_error_mem env.cenv env.heroHeadPath env.pageImagePath
      env.outputPath (!env.noHair) e m h
    fin_cases h7 <;> simp [codeErrorKinds]

/-- An environment in which every external call fails. -/
def emptyCompositeEnv : CompositeEnv :=
  ⟨none, none, none, .ok none, .ok none, fun _ _ => none, fun i _ _ _ => i,
   fun _ _ m => m, fun i => i.pix.map fun p => ((p.1 : ℚ), (p.2.1 : ℚ), (p.2.2 : ℚ)),
   fun l => ⟨0, 0, l⟩, fun _ _ _ _ => .error "fail", false⟩

/-- An invocation where OpenCV and NumPy import fine but InsightFace does
not (line 398 of the source). -/
def insightfaceMissingEnv : MainEnv :=
  ⟨true, "", false, true, true, "hero.png", "page.png", "out.png", false,
   emptyCompositeEnv⟩

/-- C1 counterexample: with NumPy/OpenCV importable and InsightFace absent,
the program reports `ok = false` with the error string
`INSIGHTFACE_MISSING`, which is not one of the eight enumerated kinds. -/
theorem C1_error_kinds_counterexample :
    mainRun insightfaceMissingEnv = .failure "INSIGHTFACE_MISSING"
      "InsightFace not installed. Install with: pip install insightface" ∧
    "INSIGHTFACE_MISSING" ∉ specErrorKinds := by
  refine ⟨rfl, ?_⟩
  simp [specErrorKinds]

/-- C1 witness: the amended statement applied to the concrete
InsightFace-missing invocation. -/
theorem C1_error_kinds_amended_witness : "INSIGHTFACE_MISSING" ∈ codeErrorKinds :=
  C1_error_kinds_amended insightfaceMissingEnv "INSIGHTFACE_MISSING"
    "InsightFace not installed. Install with: pip install insightface" rfl

/-- A fully-succeeding environment whose `cv2.imwrite` call reports failure
(returns `False`). -/
def ignoredWriteEnv : CompositeEnv :=
  ⟨some 0, some heroImgW, some pageImgW, .ok (some [heroFaceW]), .ok (some [pageFaceW]),
   fun _ _ => some transform0, fun i _ _ _ => i, fun _ _ m => m,
   fun i => i.pix.map fun p => ((p.1 : ℚ), (p.2.1 : ℚ), (p.2.2 : ℚ)),
   fun l => ⟨1, 1, l⟩, fun _ _ _ _ => .ok ⟨1, 1, [(0, 0, 0)]⟩, false⟩

/-- C10: the pipeline result never depends on the Boolean `cv2.imwrite`
returns — flipping it leaves the result identical — and in a concrete run
whose write fails the success result (with output path, blend method and
both bboxes) is still reported. -/
theorem C10_imwrite_never_inspected :
    (∀ (env : CompositeEnv) (hp pp op : String) (ih b₁ b₂ : Bool),
      compositeFace { env with imwriteOk := b₁ } hp pp op ih
        = compositeFace { env with imwriteOk := b₂ } hp pp op ih) ∧
    (ignoredWriteEnv.imwriteOk = false ∧
      compositeFace ignoredWriteEnv "hero.png" "page.png" "out.png" true
        = .success "out.png" "seamless_clone" ⟨0, 0, 4, 4⟩ ⟨4, 4, 8, 8⟩) := by
  refine ⟨?_, rfl, ?_⟩
  · intro env hp pp op ih b₁ b₂
    cases env
    rfl
  · rfl

/-- C3: the face selector returns `none` on an empty candidate list, the
sole candidate of a singleton unchanged, and otherwise a candidate of
maximal score `area - 10 * distance-to-center` that is the earliest such
candidate in the input order (stable first-max: everything before it in the
list scores strictly lower). -/
theorem C3_selector_spec (faces : List Face) (w h : ℚ) :
    (faces = [] → selectMainFace faces w h = none) ∧
    (∀ f, faces = [f] → selectMainFace faces w h = some f) ∧
    (2 ≤ faces.length →
      ∃ g pre post, selectMainFace faces w h = some g ∧
        faces = pre ++ g :: post ∧
        (∀ f ∈ faces, scoreFace f w h ≤ scoreFace g w h) ∧
        (∀ f ∈ pre, scoreFace f w h < scoreFace g w h)) :=
  selectMainFace_spec faces w h

def faceSmallW : Face := ⟨some [((0:ℚ), (0:ℚ))], ⟨0, 0, 2, 2⟩⟩

def faceLargeW : Face := ⟨none, ⟨0, 0, 4, 4⟩⟩

/-- C3 witness: the three branches of the selector specification at
concrete inputs — empty list, singleton, and a two-candidate list. -/
theorem C3_selector_spec_witness :
    selectMainFace [] 10 10 = none ∧
    selectMainFace [faceSmallW] 10 10 = some faceSmallW ∧
    (∃ g pre post, selectMainFace [faceSmallW, faceLargeW] 10 10 = some g ∧
      [faceSmallW, faceLargeW] = pre ++ g :: post ∧
      (∀ f ∈ [faceSmallW, faceLargeW], scoreFace f 10 10 ≤ scoreFace g 10 10) ∧
      (∀ f ∈ pre, scoreFace f 10 10 < scoreFace g 10 10)) :=
  ⟨(C3_selector_spec [] 10 10).1 rfl,
   (C3_selector_spec [faceSmallW] 10 10).2.1 faceSmallW rfl,
   (C3_selector_spec [faceSmallW, faceLargeW] 10 10).2.2 (by decide)⟩

/-- C7 counterexample: a candidate with exactly twice the area of the only
other candidate (200 vs 100) but far from the center of a 1000 x 1000 image
loses to the small centered candidate: the selector returns the centered
one, so double area alone does not guarantee the maximal score. -/
theorem C7_area_dominance_counterexample :
    bboxArea (⟨0, 0, 20, 10⟩ : BBox) = 2 * bboxArea (⟨495, 495, 505, 505⟩ : BBox) ∧
    selectMainFace [⟨none, ⟨0, 0, 20, 10⟩⟩, ⟨none, ⟨495, 495, 505, 505⟩⟩] 1000 1000
      = some ⟨none, ⟨495, 495, 505, 505⟩⟩ := by
  constructor
  · norm_num [bboxArea]
  · norm_num [selectMainFace, pyMaxBy, scoreGt, sqrtAddGt, bboxArea, distSq]

/-- C7 amended: a candidate whose bbox area is at least twice that of every
other candidate, and whose extra area moreover exceeds 10 times its extra
distance to the image center over each other candidate, has the maximal
score and is selected. -/
theorem C7_area_dominance_amended (faces : List Face) (w h : ℚ) (g : Face)
    (hg : g ∈ faces) (hlen : 2 ≤ faces.length)
    (h2x : ∀ f ∈ faces, f ≠ g → 2 * bboxArea f.bbox ≤ bboxArea g.bbox)
    (hgap : ∀ f ∈ faces, f ≠ g →
      10 * (Real.sqrt ((distSq g.bbox w h : ℚ) : ℝ)
          - Real.sqrt ((distSq f.bbox w h : ℚ) : ℝ))
        < (bboxArea g.bbox : ℝ) - (bboxArea f.bbox : ℝ)) :
    (∀ f ∈ faces, scoreFace f w h ≤ scoreFace g w h) ∧
    selectMainFace faces w h = some g := by
  have hstrict : ∀ f ∈ faces, f ≠ g → scoreFace f w h < scoreFace g w h := by
    intro f hf hne
    have := hgap f hf hne
    have h2 := h2x f hf hne
    unfold scoreFace
    linarith
  constructor
  · intro f hf
    by_cases hfg : f = g
    · rw [hfg]
    · exact le_of_lt (hstrict f hf hfg)
  · exact selectMainFace_eq_of_strict faces w h g hg hlen hstrict

/-- C7 witness: a 1600-area candidate and a 400-area candidate both centered
in a 100 x 100 image; the amended hypotheses hold and the large candidate is
selected with maximal score. -/
theorem C7_area_dominance_amended_witness :
    (∀ f ∈ [(⟨none, ⟨40, 40, 60, 60⟩⟩ : Face), ⟨none, ⟨30, 30, 70, 70⟩⟩],
      scoreFace f 100 100 ≤ scoreFace ⟨none, ⟨30, 30, 70, 70⟩⟩ 100 100) ∧
    selectMainFace [⟨none, ⟨40, 40, 60, 60⟩⟩, ⟨none, ⟨30, 30, 70, 70⟩⟩] 100 100
      = some ⟨none, ⟨30, 30, 70, 70⟩⟩ := by
  apply C7_area_dominance_amended
  · simp
  · decide
  · intro f hf hne
    rcases List.mem_cons.mp hf with rfl | h2
    · norm_num [bboxArea]
    · rcases List.mem_cons.mp h2 with rfl | h3
      · exact absurd rfl hne
      · simp at h3
  · intro f hf hne
    rcases List.mem_cons.mp hf with rfl | h2
    · norm_num [bboxArea, distSq, Real.sqrt_zero]
    · rcases List.mem_cons.mp h2 with rfl | h3
      · exact absurd rfl hne
      · simp at h3

/-- The mask selection of `channel[mask_bool]` applied to the real-valued
transferred channel. -/
def maskedValsR (vals : List ℝ) (mask : List ℕ) : List ℝ :=
  ((vals.zip mask).filter fun p => 128 < p.2).map Prod.fst

/-- `np.mean` over the real-valued channel. -/
noncomputable def listMeanR (l : List ℝ) : ℝ :=
  l.sum / l.length

lemma maskedValsR_map (f : ℚ → ℝ) (src : List ℚ) (mask : List ℕ) :
    maskedValsR (src.map f) mask = (maskedVals src mask).map f := by
  induction src generalizing mask with
  | nil => simp [maskedValsR, maskedVals]
  | cons x t ih =>
    cases mask with
    | nil => simp [maskedValsR, maskedVals]
    | cons m mt =>
      have h := ih mt
      by_cases hm : 128 < m
      · simp [maskedValsR, maskedVals, List.filter_cons, hm] at h ⊢
        exact h
      · simp [maskedValsR, maskedVals, List.filter_cons, hm] at h ⊢
        exact h

lemma maskedVals_ne_nil (src : List ℚ) (mask : List ℕ)
    (hlen : src.length = mask.length) (hmask : anyMask mask = true) :
    maskedVals src mask ≠ [] := by
  induction src generalizing mask with
  | nil =>
    cases mask with
    | nil => simp [anyMask] at hmask
    | cons m mt => simp at hlen
  | cons x t ih =>
    cases mask with
    | nil => simp [anyMask] at hmask
    | cons m mt =>
      by_cases hm : 128 < m
      · simp [maskedVals, hm]
      · have hmt : anyMask mt = true := by
          simp only [anyMask, List.any_cons, Bool.or_eq_true, decide_eq_true_eq] at hmask ⊢
          rcases hmask with h1 | h2
          · exact absurd h1 hm
          · exact h2
        have hrec := ih mt (by simpa using hlen) hmt
        simpa [maskedVals, hm] using hrec

lemma cast_list_sum (l : List ℚ) :
    ((l.sum : ℚ) : ℝ) = (l.map fun x : ℚ => (x : ℝ)).sum := by
  induction l with
  | nil => simp
  | cons x t ih =>
    simp only [List.sum_cons, List.map_cons]
    push_cast [ih]
    ring

lemma sum_affine_general (l : List ℚ) (c k d : ℝ) :
    (l.map fun x => (((x : ℚ) : ℝ) - c) * k + d).sum
      = ((l.map fun x : ℚ => (x : ℝ)).sum - (l.length : ℝ) * c) * k
        + (l.length : ℝ) * d := by
  induction l with
  | nil => simp
  | cons x t ih =>
    simp only [List.map_cons, List.sum_cons, List.length_cons, ih]
    push_cast
    ring

/-- The mean of an affine image `(x - mean l) * k + d` of a nonempty list
around its own mean is `d`. -/
lemma listMeanR_affine (l : List ℚ) (k d : ℝ) (hne : l ≠ []) :
    listMeanR (l.map fun x => (((x : ℚ) : ℝ) - ((meanQ l : ℚ) : ℝ)) * k + d) = d := by
  have hn : (0 : ℝ) < (l.length : ℝ) := by
    have : 0 < l.length := List.length_pos.mpr hne
    exact_mod_cast this
  have hμ : ((meanQ l : ℚ) : ℝ) = (l.map fun x : ℚ => (x : ℝ)).sum / (l.length : ℝ) := by
    unfold meanQ
    push_cast [cast_list_sum]
    ring
  have hn' : (l.length : ℝ) ≠ 0 := ne_of_gt hn
  unfold listMeanR
  rw [List.length_map, sum_affine_general l (((meanQ l : ℚ) : ℝ)) k d, hμ]
  field_simp

/-- C4 amended: the mean of the transferred channel values over the mask
region (`mask > 128`) equals the target mean exactly, in exact arithmetic,
before the final clip (whenever the mask selects at least one pixel and the
channel has one value per mask entry); and after `np.clip` every result
value lies within `[0, 255]`.  The clip can move the masked mean away from
the target mean (see the counterexample), so mean preservation holds only
pre-clip. -/
theorem C4_color_match_amended (src tgt : List ℚ) (mask : List ℕ)
    (hlen : src.length = mask.length) (hmask : anyMask mask = true) :
    listMeanR (maskedValsR (colorMatchChannel src tgt mask) mask)
      = ((meanQ (statsBase tgt mask) : ℚ) : ℝ) ∧
    (∀ v ∈ colorMatchChannelClipped src tgt mask, 0 ≤ v ∧ v ≤ 255) := by
  constructor
  · have hsb : statsBase src mask = maskedVals src mask := by
      unfold statsBase
      rw [if_pos hmask]
    simp only [colorMatchChannel]
    rw [maskedValsR_map, hsb]
    exact listMeanR_affine (maskedVals src mask) _ _
      (maskedVals_ne_nil src mask hlen hmask)
  · intro v hv
    simp only [colorMatchChannelClipped, List.mem_map] at hv
    obtain ⟨u, hu, rfl⟩ := hv
    unfold clip255
    refine ⟨le_max_left _ _, ?_⟩
    exact max_le (by norm_num) (min_le_right _ _)

/-- C4 witness: the amended statement at a one-pixel channel with a fully
selecting mask. -/
theorem C4_color_match_amended_witness :
    listMeanR (maskedValsR (colorMatchChannel [100] [50] [255]) [255])
      = ((meanQ (statsBase [50] [255]) : ℚ) : ℝ) ∧
    (∀ v ∈ colorMatchChannelClipped [100] [50] [255], 0 ≤ v ∧ v ≤ 255) :=
  C4_color_match_amended [100] [50] [255] rfl rfl

/-- C4 counterexample: source channel `[0, 0, 0, 200]`, target channel
`[255, 255, 255, 55]`, mask fully selecting.  Both have standard deviation
`sqrt 7500`, so the transfer shifts values by `+155` to
`[155, 155, 155, 355]`; the clip maps `355` to `255`, giving a result whose
masked mean is `180` while the target mean is `205` — the means differ by
25, far beyond floating-point tolerance. -/
theorem C4_color_match_counterexample :
    listMeanR (maskedValsR (colorMatchChannelClipped [0, 0, 0, 200]
        [255, 255, 255, 55] [255, 255, 255, 255]) [255, 255, 255, 255]) = 180 ∧
    ((meanQ (statsBase [255, 255, 255, 55] [255, 255, 255, 255]) : ℚ) : ℝ) = 205 := by
  have hts : statsBase [255, 255, 255, 55] [255, 255, 255, 255]
      = [(255 : ℚ), 255, 255, 55] := by
    norm_num [statsBase, anyMask, maskedVals]
  have hss : statsBase [0, 0, 0, 200] [255, 255, 255, 255]
      = [(0 : ℚ), 0, 0, 200] := by
    norm_num [statsBase, anyMask, maskedVals]
  have hms : meanQ [(0 : ℚ), 0, 0, 200] = 50 := by norm_num [meanQ]
  have hmt : meanQ [(255 : ℚ), 255, 255, 55] = 205 := by norm_num [meanQ]
  have hvs : varQ [(0 : ℚ), 0, 0, 200] = 7500 := by norm_num [varQ, meanQ]
  have hvt : varQ [(255 : ℚ), 255, 255, 55] = 7500 := by norm_num [varQ, meanQ]
  have hs75 : Real.sqrt ((7500 : ℚ) : ℝ) ≠ 0 := by
    rw [Real.sqrt_ne_zero']
    norm_num
  have hchan : colorMatchChannelClipped [0, 0, 0, 200] [255, 255, 255, 55]
      [255, 255, 255, 255] = [(155 : ℝ), 155, 155, 255] := by
    simp only [colorMatchChannelClipped, colorMatchChannel, stdR]
    rw [hts, hss, hms, hmt, hvs, hvt]
    rw [if_neg (by norm_num : ¬ (7500 : ℚ) < 1)]
    rw [div_self hs75]
    simp only [List.map_cons, List.map_nil, mul_one]
    norm_num [clip255, min_def, max_def]
  constructor
  · rw [hchan]
    norm_num [maskedValsR, listMeanR]
  · rw [hts, hmt]
    norm_num

end FaceComposite
